import Mathlib

/-!
Verification of the xcap Windows capture engine (`src/windows/capture.rs`)
against its natural-language specification.

The Rust source is shallowly embedded: window coordinates (Win32 `LONG`,
i.e. `i32`) become `Int`, style bitmasks (`u32`) become `Nat`, the `f32`
scale factor becomes `Rat` with exact `ceil`/`floor`, and every explicit
Rust cast (`as u32`, `as usize`, saturating `f32 as u32`/`f32 as i32`)
is modelled by an explicit conversion function.  OS calls (PrintWindow,
BitBlt, GetDIBits, GetObjectW, DwmIsCompositionEnabled, handle releases)
are modelled by an environment record describing their outcomes, and the
two entry points additionally emit a trace of handle acquire/release
events so that resource-lifetime properties can be stated.
-/

namespace XCap

/-- Rust `x as u32` on an `i32` value: wrap into `[0, 2^32)`. -/
def i32AsU32 (z : Int) : Nat := (z % 2 ^ 32).toNat

/-- Rust `x as usize` on an `i32` value (64-bit target): sign-extend then
reinterpret, i.e. wrap into `[0, 2^64)`. -/
def i32AsUsize (z : Int) : Nat := (z % 2 ^ 64).toNat

/-- Wrapping of an exact integer result into the `i32` range, as Rust
release-mode arithmetic does on overflow. -/
def wrap32 (z : Int) : Int := (z + 2 ^ 31) % 2 ^ 32 - 2 ^ 31

/-- Rust saturating cast `f32 as u32` applied to an integral value:
negative values clamp to `0`, values above `u32::MAX` clamp to it. -/
def satU32 (z : Int) : Nat := (min (max z 0) (2 ^ 32 - 1)).toNat

/-- Rust saturating cast `f32 as i32` applied to an integral value. -/
def satI32 (z : Int) : Int := max (-(2 ^ 31)) (min z (2 ^ 31 - 1))

/-- The tagged errors the embedded engine can produce.  The Rust code
builds `XCapError` values from strings or propagated OS errors; here each
distinct failure site gets a constructor. -/
inductive XCapError where
  /-- `XCapError::new("Get RGBA data failed")` — `GetDIBits` returned 0. -/
  | getRgbaDataFailed
  /-- The buffer handed to the BGRA→RGBA converter has the wrong length. -/
  | invalidBufferSize
  /-- A `windows` crate error propagated with `?` (BitBlt on the monitor
  path, `DwmIsCompositionEnabled` on the window path). -/
  | osError
  deriving DecidableEq, Repr

/-- Win32 `RECT`: `LONG` (i.e. `i32`) edges. -/
structure RECT where
  left : Int
  top : Int
  right : Int
  bottom : Int
  deriving DecidableEq, Repr

/-- The fields of Win32 `WINDOWINFO` that the capture engine reads, plus
`dwExStyle`, which it receives but never reads. -/
structure WINDOWINFO where
  rcWindow : RECT
  rcClient : RECT
  dwStyle : Nat
  dwExStyle : Nat
  deriving DecidableEq, Repr

/-- `WS_CAPTION` style bit mask. -/
def WS_CAPTION : Nat := 0x00C00000

/-- `WS_THICKFRAME` style bit mask. -/
def WS_THICKFRAME : Nat := 0x00040000

/-- `WS_DLGFRAME` style bit mask. -/
def WS_DLGFRAME : Nat := 0x00400000

/-- Embedding of `window_has_native_header` (capture.rs lines 25–54):
decide whether the window has OS-drawn chrome from its style bits and the
window/client rectangle gaps. -/
def window_has_native_header (window_info : WINDOWINFO) : Bool :=
  let style := window_info.dwStyle
  let has_caption := style &&& WS_CAPTION != 0
  let has_frame := (style &&& WS_THICKFRAME != 0) || (style &&& WS_DLGFRAME != 0)
  let title_bar_height := window_info.rcClient.top - window_info.rcWindow.top
  if has_caption && decide (title_bar_height > 25) then
    let left_border := window_info.rcClient.left - window_info.rcWindow.left
    let right_border := window_info.rcWindow.right - window_info.rcClient.right
    let bottom_border := window_info.rcWindow.bottom - window_info.rcClient.bottom
    let has_consistent_borders :=
      decide (left_border > 5) && decide (right_border > 5) && decide (bottom_border > 5)
    has_frame && has_consistent_borders
  else
    false

/-- The engine's output image: width, height and RGBA bytes, row-major. -/
structure RgbaImage where
  width : Nat
  height : Nat
  data : List Nat
  deriving DecidableEq, Repr

/-- Swap the first and third byte of every complete 4-byte group
(BGRA → RGBA), leaving a trailing incomplete group unchanged. -/
def swapBGRA : List Nat → List Nat
  | b :: g :: r :: a :: rest => r :: g :: b :: a :: swapBGRA rest
  | l => l

/-- Modelled from the spec: `bgra_to_rgba_image` lives in the repository's
`windows/utils` module, which is not among the provided sources; only
its use sites in capture.rs are.  Per spec §4.3 it takes width, height and a
BGRA byte sequence, fails with `InvalidBufferSize` when the length is not
`width*height*4`, and otherwise swaps the red and blue channel of every
4-byte pixel, preserving green, alpha and row order. -/
def bgra_to_rgba_image (width height : Nat) (buffer : List Nat) :
    Except XCapError RgbaImage :=
  if buffer.length = width * height * 4 then
    .ok { width := width, height := height, data := swapBGRA buffer }
  else
    .error .invalidBufferSize

/-- Embedding of `to_rgba_image` (capture.rs lines 56–97).  The raw
bitmap read-back is modelled by `getDIBitsOk` (whether `GetDIBits`
returned nonzero) and `mem` (the bytes it wrote into the buffer, which
has exactly `buffer_size` bytes, `buffer_size` computed in `i32`
arithmetic and converted with `as usize`). -/
def to_rgba_image (getDIBitsOk : Bool) (mem : Nat → Nat) (width height : Int) :
    Except XCapError RgbaImage :=
  let buffer_size := wrap32 (width * height * 4)
  let buffer := (List.range (i32AsUsize buffer_size)).map mem
  if !getDIBitsOk then
    .error .getRgbaDataFailed
  else
    bgra_to_rgba_image (i32AsU32 width) (i32AsU32 height) buffer

/-- The GDI handles the two entry points wrap in `scopeguard::guard`. -/
inductive GdiHandle where
  /-- The desktop window DC acquired by `capture_monitor`. -/
  | hdcDesktop
  /-- The target window DC acquired by `capture_window`. -/
  | hdcWindow
  /-- The memory-compatible DC. -/
  | hdcMem
  /-- The compatible bitmap. -/
  | hBitmap
  deriving DecidableEq, Repr

/-- Handle lifecycle events.  `rel h ok` records that the release
function for `h` ran, with `ok = false` when the underlying OS release
call reported failure (which the guards merely log). -/
inductive GdiEvent where
  /-- A handle was acquired. -/
  | acq (h : GdiHandle)
  /-- A handle's release function ran; `ok` is the OS result. -/
  | rel (h : GdiHandle) (ok : Bool)
  deriving DecidableEq, Repr

/-- Outcomes of the OS calls `capture_monitor` makes. -/
structure MonEnv where
  /-- Whether the single `BitBlt` screen copy succeeds. -/
  bitBltOk : Bool
  /-- Whether `GetDIBits` returns nonzero. -/
  getDIBitsOk : Bool
  /-- The bytes `GetDIBits` leaves in the read-back buffer. -/
  mem : Nat → Nat
  /-- Which handle release calls report failure. -/
  releaseFail : GdiHandle → Bool

/-- Embedding of `capture_monitor` (capture.rs lines 110–155), paired
with the trace of handle events.  The three guards are acquired in order
desktop-DC, memory-DC, bitmap, and dropped in reverse order on every exit
path: the `BitBlt` error propagated with `?`, a `to_rgba_image` error,
and the successful return. -/
def capture_monitor (env : MonEnv) (x y width height : Int) :
    Except XCapError RgbaImage × List GdiEvent :=
  let acqs := [GdiEvent.acq .hdcDesktop, GdiEvent.acq .hdcMem, GdiEvent.acq .hBitmap]
  let rels := [GdiEvent.rel .hBitmap (!env.releaseFail .hBitmap),
               GdiEvent.rel .hdcMem (!env.releaseFail .hdcMem),
               GdiEvent.rel .hdcDesktop (!env.releaseFail .hdcDesktop)]
  let _ := (x, y)
  if !env.bitBltOk then
    (.error .osError, acqs ++ rels)
  else
    match to_rgba_image env.getDIBitsOk env.mem width height with
    | .error e => (.error e, acqs ++ rels)
    | .ok image => (.ok image, acqs ++ rels)

/-- The four techniques `capture_window` can attempt, in priority
order. -/
inductive Technique where
  /-- `PrintWindow` with `PRINT_WINDOW_FLAGS(2)` (PW_RENDERFULLCONTENT). -/
  | pw2
  /-- `PrintWindow` with `PRINT_WINDOW_FLAGS(0)`. -/
  | pw0
  /-- `PrintWindow` with `PRINT_WINDOW_FLAGS(4)` (client area only). -/
  | pw4
  /-- The raw `BitBlt` screen copy from the window DC. -/
  | blt
  deriving DecidableEq, Repr

/-- Outcomes of the OS calls `capture_window` makes. -/
structure WinEnv where
  /-- Result of `get_os_major_version()`. -/
  osMajor : Nat
  /-- Whether `PrintWindow` succeeds, per flag value. -/
  printWindow : Nat → Bool
  /-- Result of `DwmIsCompositionEnabled`: `none` models the call itself
  failing (its error is propagated with `?`). -/
  dwm : Option Bool
  /-- Whether the fallback `BitBlt` succeeds. -/
  bitBltOk : Bool
  /-- `GetObjectW` on the window DC's current bitmap: `some (w, h)` when
  it returns nonzero, carrying `bmWidth`/`bmHeight`. -/
  getObject : Option (Int × Int)
  /-- Whether `GetDIBits` returns nonzero. -/
  getDIBitsOk : Bool
  /-- The bytes `GetDIBits` leaves in the read-back buffer. -/
  mem : Nat → Nat
  /-- Which handle release calls report failure. -/
  releaseFail : GdiHandle → Bool

/-- Embedding of capture.rs lines 161–189: the pre-crop surface size.
Width and height start from the window rectangle, are replaced by the
current bitmap's `bmWidth`/`bmHeight` when `GetObjectW` succeeds, then
scaled by `scale_factor` and rounded up (`.ceil() as i32`). -/
def pre_crop_size (env : WinEnv) (window_info : WINDOWINFO) (scale_factor : Rat) :
    Int × Int :=
  let rc_window := window_info.rcWindow
  let width := rc_window.right - rc_window.left
  let height := rc_window.bottom - rc_window.top
  let wh :=
    match env.getObject with
    | some (bw, bh) => (bw, bh)
    | none => (width, height)
  (satI32 ⌈(wh.1 : Rat) * scale_factor⌉, satI32 ⌈(wh.2 : Rat) * scale_factor⌉)

/-- Embedding of the fallback chain (capture.rs lines 205–233): the
sequence of `is_success` updates, together with the list of techniques
actually attempted.  `DwmIsCompositionEnabled` is consulted only when the
first technique did not succeed (Rust `&&` short-circuit), and its error
is propagated with `?`. -/
def run_chain (env : WinEnv) : Except XCapError (Bool × List Technique) :=
  let is1 := if 8 ≤ env.osMajor then env.printWindow 2 else false
  let tr1 := if 8 ≤ env.osMajor then [Technique.pw2] else []
  if is1 then
    .ok (is1, tr1)
  else
    match env.dwm with
    | none => .error .osError
    | some enabled =>
      let is2 := if enabled then env.printWindow 0 else is1
      let tr2 := tr1 ++ (if enabled then [Technique.pw0] else [])
      let is3 := if !is2 then env.printWindow 4 else is2
      let tr3 := tr2 ++ (if !is2 then [Technique.pw4] else [])
      let is4 := if !is3 then env.bitBltOk else is3
      let tr4 := tr3 ++ (if !is3 then [Technique.blt] else [])
      .ok (is4, tr4)

/-- Embedding of capture.rs lines 243–264: the four arguments passed to
`DynamicImage::crop`, computed in `f32` from the window geometry and cast
with the saturating `as u32`.  In the native-chrome branch `y` is the
`i32` literal `0`. -/
def crop_args (window_info : WINDOWINFO) (scale_factor : Rat) :
    Nat × Nat × Nat × Nat :=
  let rc_client := window_info.rcClient
  let rc_window := window_info.rcWindow
  if window_has_native_header window_info then
    (satU32 ⌈((rc_client.left - rc_window.left : Int) : Rat) * scale_factor⌉,
     0,
     satU32 ⌊((rc_client.right - rc_client.left : Int) : Rat) * scale_factor⌋,
     satU32 ⌊((rc_client.bottom - rc_window.top : Int) : Rat) * scale_factor⌋)
  else
    (satU32 ⌈((rc_client.left - rc_window.left : Int) : Rat) * scale_factor⌉,
     satU32 ⌈((rc_client.top - rc_window.top : Int) : Rat) * scale_factor⌉,
     satU32 ⌊((rc_client.right - rc_client.left : Int) : Rat) * scale_factor⌋,
     satU32 ⌊((rc_client.bottom - rc_client.top : Int) : Rat) * scale_factor⌋)

/-- The `image` crate's `DynamicImage::crop`: the requested rectangle is
clamped to the image bounds, then the sub-image is extracted row by
row. -/
def crop (img : RgbaImage) (x y w h : Nat) : RgbaImage :=
  let x' := min x img.width
  let y' := min y img.height
  let w' := min w (img.width - x')
  let h' := min h (img.height - y')
  { width := w', height := h',
    data := (List.range h').flatMap
      (fun r => (img.data.drop (((y' + r) * img.width + x') * 4)).take (w' * 4)) }

/-- Embedding of `capture_window` (capture.rs lines 158–266), paired with
the trace of handle events.  The guards are acquired in order window-DC,
memory-DC, bitmap, and dropped in reverse order on every exit path: the
`DwmIsCompositionEnabled` error propagated from inside the chain, a
`to_rgba_image` error, and the successful return.  The chain's final
`is_success` value is bound and then never consulted, exactly as in the
source. -/
def capture_window (env : WinEnv) (window_info : WINDOWINFO) (scale_factor : Rat) :
    Except XCapError RgbaImage × List GdiEvent :=
  let acqs := [GdiEvent.acq .hdcWindow, GdiEvent.acq .hdcMem, GdiEvent.acq .hBitmap]
  let rels := [GdiEvent.rel .hBitmap (!env.releaseFail .hBitmap),
               GdiEvent.rel .hdcMem (!env.releaseFail .hdcMem),
               GdiEvent.rel .hdcWindow (!env.releaseFail .hdcWindow)]
  let wh := pre_crop_size env window_info scale_factor
  match run_chain env with
  | .error e => (.error e, acqs ++ rels)
  | .ok _is_success =>
    match to_rgba_image env.getDIBitsOk env.mem wh.1 wh.2 with
    | .error e => (.error e, acqs ++ rels)
    | .ok image =>
      let args := crop_args window_info scale_factor
      (.ok (crop image args.1 args.2.1 args.2.2.1 args.2.2.2), acqs ++ rels)

/-- Claim-side description: whether a given technique succeeds in a given
environment. -/
def techSucc (env : WinEnv) : Technique → Bool
  | .pw2 => env.printWindow 2
  | .pw0 => env.printWindow 0
  | .pw4 => env.printWindow 4
  | .blt => env.bitBltOk

/-- Claim-side description: the techniques available for attempting, in
priority order — the first render request only when the OS major version
is at least 8, the second only when desktop composition is enabled, then
the third render request and the raw screen copy unconditionally. -/
def availableTechs (env : WinEnv) (enabled : Bool) : List Technique :=
  (if 8 ≤ env.osMajor then [Technique.pw2] else []) ++
    (if enabled then [Technique.pw0] else []) ++ [Technique.pw4, Technique.blt]

/-- Claim-side description: attempt the techniques of a list in order,
stopping at the first success; return the overall success flag and the
list of techniques actually attempted. -/
def tryFirst (env : WinEnv) : List Technique → Bool × List Technique
  | [] => (false, [])
  | t :: ts =>
    if techSucc env t then (true, [t])
    else
      let rest := tryFirst env ts
      (rest.1, t :: rest.2)

/-! ### Helper lemmas -/

/-- `swapBGRA` preserves the length of the buffer. -/
theorem swapBGRA_length : ∀ l : List Nat, (swapBGRA l).length = l.length
  | [] => rfl
  | [_] => rfl
  | [_, _] => rfl
  | [_, _, _] => rfl
  | _ :: _ :: _ :: _ :: rest => by
    simp [swapBGRA, swapBGRA_length rest]

/-- `swapBGRA` is an involution. -/
theorem swapBGRA_swapBGRA : ∀ l : List Nat, swapBGRA (swapBGRA l) = l
  | [] => rfl
  | [_] => rfl
  | [_, _] => rfl
  | [_, _, _] => rfl
  | _ :: _ :: _ :: _ :: rest => by
    simp [swapBGRA, swapBGRA_swapBGRA rest]

/-- Indexing past four leading elements of a list. -/
theorem getElem?_cons4 (w x y z : Nat) (t : List Nat) (n : Nat) :
    (w :: x :: y :: z :: t)[n + 4]? = t[n]? := by
  have e : n + 4 = n + 1 + 1 + 1 + 1 := by ring
  rw [e, List.getElem?_cons_succ, List.getElem?_cons_succ, List.getElem?_cons_succ,
    List.getElem?_cons_succ]

/-- On a buffer whose length is a multiple of 4, `swapBGRA` exchanges the
first and third byte of each 4-byte pixel and fixes the other two. -/
theorem swapBGRA_get? :
    ∀ l : List Nat, l.length % 4 = 0 → ∀ i : Nat,
      (swapBGRA l)[4 * i]? = l[4 * i + 2]? ∧
      (swapBGRA l)[4 * i + 1]? = l[4 * i + 1]? ∧
      (swapBGRA l)[4 * i + 2]? = l[4 * i]? ∧
      (swapBGRA l)[4 * i + 3]? = l[4 * i + 3]?
  | [], _, _ => by simp [swapBGRA]
  | [_], h, _ => by simp at h
  | [_, _], h, _ => by simp at h
  | [_, _, _], h, _ => by simp at h
  | b :: g :: r :: a :: rest, h, i => by
    have h' : rest.length % 4 = 0 := by
      simp [List.length_cons] at h
      omega
    cases i with
    | zero => simp [swapBGRA]
    | succ j =>
      have ih := swapBGRA_get? rest h' j
      have e1 : 4 * (j + 1) = 4 * j + 4 := by ring
      have e2 : 4 * (j + 1) + 1 = 4 * j + 1 + 4 := by ring
      have e3 : 4 * (j + 1) + 2 = 4 * j + 2 + 4 := by ring
      have e4 : 4 * (j + 1) + 3 = 4 * j + 3 + 4 := by ring
      refine ⟨?_, ?_, ?_, ?_⟩
      · rw [e3, e1]
        simp only [swapBGRA]
        rw [getElem?_cons4, getElem?_cons4]
        exact ih.1
      · rw [e2]
        simp only [swapBGRA]
        rw [getElem?_cons4, getElem?_cons4]
        exact ih.2.1
      · rw [e3, e1]
        simp only [swapBGRA]
        rw [getElem?_cons4, getElem?_cons4]
        exact ih.2.2.1
      · rw [e4]
        simp only [swapBGRA]
        rw [getElem?_cons4, getElem?_cons4]
        exact ih.2.2.2

/-- `satU32` is the identity (up to `toNat`) inside the `u32` range. -/
theorem satU32_eq {z : Int} (h0 : 0 ≤ z) (h1 : z < 2 ^ 32) : satU32 z = z.toNat := by
  unfold satU32
  rw [max_eq_left h0, min_eq_left (by omega)]

/-- `satI32` always lands in the `i32` range. -/
theorem satI32_bounds (z : Int) : -(2 ^ 31) ≤ satI32 z ∧ satI32 z ≤ 2 ^ 31 - 1 := by
  unfold satI32
  constructor
  · exact le_max_left _ _
  · rw [max_le_iff]
    omega

/-! ### Concrete inputs used by counterexamples and witnesses -/

/-- The spec §8 scenario window: `windowRect=(0,0,800,600)`,
`clientRect=(8,31,792,592)`, caption and thick-frame styles set. -/
def wi8 : WINDOWINFO :=
  { rcWindow := ⟨0, 0, 800, 600⟩, rcClient := ⟨8, 31, 792, 592⟩,
    dwStyle := WS_CAPTION ||| WS_THICKFRAME, dwExStyle := 0 }

/-- A native-chrome window used by the C2 witness. -/
def c2wiA : WINDOWINFO :=
  { rcWindow := ⟨0, 0, 400, 300⟩, rcClient := ⟨7, 30, 393, 293⟩,
    dwStyle := WS_CAPTION ||| WS_THICKFRAME, dwExStyle := 0 }

/-- `c2wiA` with a different extended style, identical otherwise. -/
def c2wiB : WINDOWINFO :=
  { rcWindow := ⟨0, 0, 400, 300⟩, rcClient := ⟨7, 30, 393, 293⟩,
    dwStyle := WS_CAPTION ||| WS_THICKFRAME, dwExStyle := 0x00000100 }

/-- An environment in which every capture technique fails but the bitmap
read-back succeeds. -/
def c1env : WinEnv :=
  { osMajor := 10, printWindow := fun _ => false, dwm := some true,
    bitBltOk := false, getObject := none, getDIBitsOk := true,
    mem := fun _ => 0, releaseFail := fun _ => false }

/-- A borderless 2×2 window whose crop covers the whole surface. -/
def c1wi : WINDOWINFO :=
  { rcWindow := ⟨0, 0, 2, 2⟩, rcClient := ⟨0, 0, 2, 2⟩, dwStyle := 0, dwExStyle := 0 }

/-- An environment in which the first capture technique succeeds and the
bitmap read-back succeeds. -/
def c5env : WinEnv :=
  { osMajor := 10, printWindow := fun _ => true, dwm := some true,
    bitBltOk := true, getObject := none, getDIBitsOk := true,
    mem := fun _ => 0, releaseFail := fun _ => false }

/-- A 4×4 window whose client area has zero width, so the computed crop
rectangle has `w = 0`. -/
def c5wi : WINDOWINFO :=
  { rcWindow := ⟨0, 0, 4, 4⟩, rcClient := ⟨2, 0, 2, 4⟩, dwStyle := 0, dwExStyle := 0 }

/-! ### Claim theorems -/

/-- C2: `window_has_native_header` returns "native chrome" iff the style
includes a caption, the title bar is strictly taller than 25, the style
includes a thick or dialog frame, and all three borders are strictly
wider than 5; and the classification depends only on the window
rectangle, the client rectangle and the style bits (not, e.g., on the
extended style). -/
theorem c2_classifier_iff (wi : WINDOWINFO) :
    (window_has_native_header wi = true ↔
      (wi.dwStyle &&& WS_CAPTION ≠ 0 ∧
       25 < wi.rcClient.top - wi.rcWindow.top ∧
       (wi.dwStyle &&& WS_THICKFRAME ≠ 0 ∨ wi.dwStyle &&& WS_DLGFRAME ≠ 0) ∧
       5 < wi.rcClient.left - wi.rcWindow.left ∧
       5 < wi.rcWindow.right - wi.rcClient.right ∧
       5 < wi.rcWindow.bottom - wi.rcClient.bottom)) ∧
    ∀ wi' : WINDOWINFO, wi.rcWindow = wi'.rcWindow → wi.rcClient = wi'.rcClient →
      wi.dwStyle = wi'.dwStyle →
      window_has_native_header wi = window_has_native_header wi' := by
  constructor
  · simp only [window_has_native_header]
    split <;> simp_all
    tauto
  · intro wi' h1 h2 h3
    unfold window_has_native_header
    rw [h1, h2, h3]

/-- Witness for C2 at a concrete native-chrome window and a second window
differing only in extended style. -/
theorem c2_classifier_iff_witness :
    window_has_native_header c2wiA = true ∧
    window_has_native_header c2wiA = window_has_native_header c2wiB :=
  ⟨(c2_classifier_iff c2wiA).1.mpr (by decide),
   (c2_classifier_iff c2wiA).2 c2wiB rfl rfl rfl⟩

/-- C8 fails as stated: at the spec §8 scenario input the classifier does
return "native chrome", but the computed crop rectangle is
`(8, 0, 784, 592)`, not the claimed `(8, 0, 784, 561)` — the native
branch height is `clientRect.bottom - windowRect.top = 592`. -/
theorem c8_counterexample :
    window_has_native_header wi8 = true ∧
    crop_args wi8 1 ≠ ((8 : Nat), (0 : Nat), (784 : Nat), (561 : Nat)) := by
  constructor
  · decide
  · have h : crop_args wi8 1 = (8, 0, 784, 592) := by
      simp [crop_args, window_has_native_header, wi8, WS_CAPTION, WS_THICKFRAME,
        WS_DLGFRAME, satU32]
    rw [h]
    decide

/-- C8 amended: at the spec §8 scenario input the classifier returns
"native chrome" and the computed crop rectangle at scale 1.0 is
`x = 8`, `y = 0`, `w = 784`, `h = 592`. -/
theorem c8_scenario_native_crop :
    window_has_native_header wi8 = true ∧
    crop_args wi8 1 = ((8 : Nat), (0 : Nat), (784 : Nat), (592 : Nat)) := by
  constructor
  · decide
  · simp [crop_args, window_has_native_header, wi8, WS_CAPTION, WS_THICKFRAME,
      WS_DLGFRAME, satU32]

/-- C9: on a buffer of length `width*height*4` the converter succeeds,
preserves the length, swaps the first and third byte of every 4-byte
pixel while fixing the second and fourth, and applying the conversion to
its own output restores the original buffer; on any other length it
fails with `InvalidBufferSize`. -/
theorem c9_converter_roundtrip (width height : Nat) (buffer : List Nat) :
    (buffer.length = width * height * 4 →
      ∃ img : RgbaImage,
        bgra_to_rgba_image width height buffer = .ok img ∧
        img.data.length = buffer.length ∧
        bgra_to_rgba_image width height img.data =
          .ok { width := width, height := height, data := buffer } ∧
        ∀ i : Nat,
          img.data[4 * i]? = buffer[4 * i + 2]? ∧
          img.data[4 * i + 1]? = buffer[4 * i + 1]? ∧
          img.data[4 * i + 2]? = buffer[4 * i]? ∧
          img.data[4 * i + 3]? = buffer[4 * i + 3]?) ∧
    (buffer.length ≠ width * height * 4 →
      bgra_to_rgba_image width height buffer = .error .invalidBufferSize) := by
  constructor
  · intro hlen
    refine ⟨{ width := width, height := height, data := swapBGRA buffer }, ?_, ?_, ?_, ?_⟩
    · simp [bgra_to_rgba_image, hlen]
    · simp [swapBGRA_length]
    · simp [bgra_to_rgba_image, swapBGRA_length, hlen, swapBGRA_swapBGRA]
    · intro i
      refine swapBGRA_get? buffer ?_ i
      rw [hlen]
      exact Nat.mul_mod_left _ 4
  · intro hlen
    simp [bgra_to_rgba_image, hlen]

/-- Witness for C9 on a one-pixel buffer and on a short buffer. -/
theorem c9_converter_roundtrip_witness :
    (bgra_to_rgba_image 1 1 [1, 2, 3, 4]).isOk = true ∧
    bgra_to_rgba_image 1 1 [1, 2, 3] = .error .invalidBufferSize := by
  constructor
  · obtain ⟨img, h1, -, -, -⟩ := (c9_converter_roundtrip 1 1 [1, 2, 3, 4]).1 (by decide)
    rw [h1]
    rfl
  · exact (c9_converter_roundtrip 1 1 [1, 2, 3]).2 (by decide)

/-- C3: for a window geometry satisfying the client-inside-window
invariant and a positive scale factor (with the scaled values inside the
`u32` range, as every on-screen geometry is), the crop rectangle passed
to `DynamicImage::crop` is exactly the ceil/floor formulas of the spec:
native chrome gives `(⌈(cl.l-w.l)·s⌉, 0, ⌊(cl.r-cl.l)·s⌋, ⌊(cl.b-w.t)·s⌋)`
and custom chrome gives
`(⌈(cl.l-w.l)·s⌉, ⌈(cl.t-w.t)·s⌉, ⌊(cl.r-cl.l)·s⌋, ⌊(cl.b-cl.t)·s⌋)`. -/
theorem c3_crop_rect_formulas (wi : WINDOWINFO) (s : Rat) (hs : 0 < s)
    (hl : wi.rcWindow.left ≤ wi.rcClient.left)
    (ht : wi.rcWindow.top ≤ wi.rcClient.top)
    (hlr : wi.rcClient.left ≤ wi.rcClient.right)
    (htb : wi.rcClient.top ≤ wi.rcClient.bottom)
    (hbx : ⌈((wi.rcClient.left - wi.rcWindow.left : Int) : Rat) * s⌉ < 2 ^ 32)
    (hby : ⌈((wi.rcClient.top - wi.rcWindow.top : Int) : Rat) * s⌉ < 2 ^ 32)
    (hbw : ⌊((wi.rcClient.right - wi.rcClient.left : Int) : Rat) * s⌋ < 2 ^ 32)
    (hbh : ⌊((wi.rcClient.bottom - wi.rcWindow.top : Int) : Rat) * s⌋ < 2 ^ 32)
    (hbh' : ⌊((wi.rcClient.bottom - wi.rcClient.top : Int) : Rat) * s⌋ < 2 ^ 32) :
    (window_has_native_header wi = true →
      crop_args wi s =
        ((⌈((wi.rcClient.left - wi.rcWindow.left : Int) : Rat) * s⌉).toNat,
         0,
         (⌊((wi.rcClient.right - wi.rcClient.left : Int) : Rat) * s⌋).toNat,
         (⌊((wi.rcClient.bottom - wi.rcWindow.top : Int) : Rat) * s⌋).toNat)) ∧
    (window_has_native_header wi = false →
      crop_args wi s =
        ((⌈((wi.rcClient.left - wi.rcWindow.left : Int) : Rat) * s⌉).toNat,
         (⌈((wi.rcClient.top - wi.rcWindow.top : Int) : Rat) * s⌉).toNat,
         (⌊((wi.rcClient.right - wi.rcClient.left : Int) : Rat) * s⌋).toNat,
         (⌊((wi.rcClient.bottom - wi.rcClient.top : Int) : Rat) * s⌋).toNat)) := by
  have castNN : ∀ a b : Int, a ≤ b → (0 : Rat) ≤ ((b - a : Int) : Rat) := by
    intro a b hab
    exact_mod_cast sub_nonneg.mpr hab
  have hx0 : 0 ≤ ⌈((wi.rcClient.left - wi.rcWindow.left : Int) : Rat) * s⌉ :=
    Int.ceil_nonneg (mul_nonneg (castNN _ _ hl) hs.le)
  have hy0 : 0 ≤ ⌈((wi.rcClient.top - wi.rcWindow.top : Int) : Rat) * s⌉ :=
    Int.ceil_nonneg (mul_nonneg (castNN _ _ ht) hs.le)
  have hw0 : 0 ≤ ⌊((wi.rcClient.right - wi.rcClient.left : Int) : Rat) * s⌋ :=
    Int.floor_nonneg.mpr (mul_nonneg (castNN _ _ hlr) hs.le)
  have hh0 : 0 ≤ ⌊((wi.rcClient.bottom - wi.rcWindow.top : Int) : Rat) * s⌋ :=
    Int.floor_nonneg.mpr (mul_nonneg (castNN _ _ (le_trans ht htb)) hs.le)
  have hh0' : 0 ≤ ⌊((wi.rcClient.bottom - wi.rcClient.top : Int) : Rat) * s⌋ :=
    Int.floor_nonneg.mpr (mul_nonneg (castNN _ _ htb) hs.le)
  constructor
  · intro hcls
    simp only [crop_args, hcls, if_true]
    rw [satU32_eq hx0 hbx, satU32_eq hw0 hbw, satU32_eq hh0 hbh]
  · intro hcls
    simp only [crop_args, hcls, Bool.false_eq_true, if_false]
    rw [satU32_eq hx0 hbx, satU32_eq hy0 hby, satU32_eq hw0 hbw, satU32_eq hh0' hbh']

/-- Witness for C3 at the concrete native-chrome window `wi8` with scale
factor 1. -/
theorem c3_crop_rect_formulas_witness :
    crop_args wi8 1 = ((8 : Nat), (0 : Nat), (784 : Nat), (592 : Nat)) := by
  have h := (c3_crop_rect_formulas wi8 1 (by norm_num)
    (by norm_num [wi8]) (by norm_num [wi8]) (by norm_num [wi8]) (by norm_num [wi8])
    (by norm_num [wi8]) (by norm_num [wi8]) (by norm_num [wi8]) (by norm_num [wi8])
    (by norm_num [wi8])).1 (by decide)
  rw [h]
  norm_num [wi8]
  decide

/-- C10: the pre-crop surface size ignores the window rectangle whenever
`GetObjectW` on the window DC's current bitmap succeeds — it is then the
bitmap's own dimensions scaled and rounded up, for any window geometry —
and falls back to the window rectangle's width and height only when the
bitmap query fails. -/
theorem c10_pre_crop_source (env : WinEnv) (wi wi' : WINDOWINFO) (s : Rat)
    (bw bh : Int) (hobj : env.getObject = some (bw, bh)) :
    pre_crop_size env wi s = (satI32 ⌈(bw : Rat) * s⌉, satI32 ⌈(bh : Rat) * s⌉) ∧
    pre_crop_size env wi s = pre_crop_size env wi' s ∧
    ∀ env₀ : WinEnv, env₀.getObject = none →
      pre_crop_size env₀ wi s =
        (satI32 ⌈((wi.rcWindow.right - wi.rcWindow.left : Int) : Rat) * s⌉,
         satI32 ⌈((wi.rcWindow.bottom - wi.rcWindow.top : Int) : Rat) * s⌉) := by
  refine ⟨?_, ?_, ?_⟩
  · simp [pre_crop_size, hobj]
  · simp [pre_crop_size, hobj]
  · intro env₀ h₀
    simp [pre_crop_size, h₀]

/-- Witness for C10: with the bitmap query reporting a 3×5 bitmap the
pre-crop size at scale 1 is (3, 5) regardless of the window rectangle. -/
theorem c10_pre_crop_source_witness :
    pre_crop_size
      { osMajor := 10, printWindow := fun _ => true, dwm := some true,
        bitBltOk := true, getObject := some (3, 5), getDIBitsOk := true,
        mem := fun _ => 0, releaseFail := fun _ => false } c1wi 1 = (3, 5) := by
  have h := (c10_pre_crop_source
    { osMajor := 10, printWindow := fun _ => true, dwm := some true,
      bitBltOk := true, getObject := some (3, 5), getDIBitsOk := true,
      mem := fun _ => 0, releaseFail := fun _ => false } c1wi c1wi 1 3 5 rfl).1
  rw [h]
  norm_num [satI32]

/-- C6: the fallback chain embedded from the source equals the claim-side
description: attempt, in priority order, `PrintWindow(2)` (only when the
OS major version is at least 8), `PrintWindow(0)` (only when desktop
composition is enabled), `PrintWindow(4)`, then the raw `BitBlt` copy,
stopping at the first success and attempting no later technique. -/
theorem c6_chain_order (env : WinEnv) (enabled : Bool)
    (hd : env.dwm = some enabled) :
    run_chain env = .ok (tryFirst env (availableTechs env enabled)) := by
  by_cases h8 : 8 ≤ env.osMajor <;>
    cases h2 : env.printWindow 2 <;>
      cases enabled <;>
        cases h0 : env.printWindow 0 <;>
          cases h4 : env.printWindow 4 <;>
            cases hb : env.bitBltOk <;>
              simp [run_chain, availableTechs, tryFirst, techSucc, h8, h2, hd, h0, h4, hb]

/-- Witness for C6: when the OS is new enough and the first render
request succeeds, that technique alone is attempted, successfully. -/
theorem c6_chain_order_witness :
    run_chain c5env = .ok (true, [Technique.pw2]) := by
  have h := c6_chain_order c5env true rfl
  rw [h]
  rfl

/-- Both components of the pre-crop size are clamped to at most
`2^31 - 1` by the saturating `f32 as i32` cast. -/
theorem pre_crop_size_le (env : WinEnv) (wi : WINDOWINFO) (s : Rat) :
    (pre_crop_size env wi s).1 ≤ 2 ^ 31 - 1 ∧
      (pre_crop_size env wi s).2 ≤ 2 ^ 31 - 1 := by
  rcases hg : env.getObject with _ | ⟨bw, bh⟩ <;>
    simp only [pre_crop_size, hg] <;>
    exact ⟨(satI32_bounds _).2, (satI32_bounds _).2⟩

/-- When `GetDIBits` succeeds and the surface dimensions are nonnegative
with `width*height*4` inside the `i32` range, the read-back produces an
image of exactly those dimensions. -/
theorem to_rgba_image_ok (mem : Nat → Nat) (w h : Int)
    (hw : 0 ≤ w) (hh : 0 ≤ h) (hwB : w ≤ 2 ^ 31 - 1) (hhB : h ≤ 2 ^ 31 - 1)
    (hsz : w * h * 4 < 2 ^ 31) :
    to_rgba_image true mem w h =
      .ok { width := w.toNat, height := h.toNat,
            data := swapBGRA ((List.range (w.toNat * h.toNat * 4)).map mem) } := by
  have hz0 : 0 ≤ w * h * 4 := by positivity
  have hcast : w * h * 4 = ((w.toNat * h.toNat * 4 : Nat) : Int) := by
    push_cast
    rw [Int.toNat_of_nonneg hw, Int.toNat_of_nonneg hh]
  have hwrap : wrap32 (w * h * 4) = w * h * 4 := by
    unfold wrap32
    omega
  have husize : i32AsUsize (w * h * 4) = w.toNat * h.toNat * 4 := by
    unfold i32AsUsize
    omega
  have hu32w : i32AsU32 w = w.toNat := by
    unfold i32AsU32
    omega
  have hu32h : i32AsU32 h = h.toNat := by
    unfold i32AsU32
    omega
  simp only [to_rgba_image]
  rw [hwrap, husize, hu32w, hu32h]
  simp [bgra_to_rgba_image]

/-- When the screen copy succeeds, the result of `capture_monitor` is
exactly the result of the bitmap read-back. -/
theorem capture_monitor_fst (env : MonEnv) (x y w h : Int)
    (hb : env.bitBltOk = true) :
    (capture_monitor env x y w h).1 = to_rgba_image env.getDIBitsOk env.mem w h := by
  simp only [capture_monitor, hb]
  cases to_rgba_image env.getDIBitsOk env.mem w h <;> simp

/-- C4: whenever `capture_monitor` succeeds on a positive-size rectangle
(with `i32`-valid dimensions), the returned image has exactly the
requested width and height. -/
theorem c4_monitor_dims (env : MonEnv) (x y width height : Int) (img : RgbaImage)
    (hw : 0 < width) (hh : 0 < height)
    (hwB : width < 2 ^ 31) (hhB : height < 2 ^ 31)
    (hok : (capture_monitor env x y width height).1 = .ok img) :
    (img.width : Int) = width ∧ (img.height : Int) = height := by
  cases hb : env.bitBltOk with
  | false => simp [capture_monitor, hb] at hok
  | true =>
    rw [capture_monitor_fst env x y width height hb] at hok
    cases hd : env.getDIBitsOk with
    | false => simp [to_rgba_image, hd] at hok
    | true =>
      simp only [to_rgba_image, hd, bgra_to_rgba_image, Bool.not_true,
        Bool.false_eq_true, if_false] at hok
      split at hok
      · simp only [Except.ok.injEq] at hok
        subst hok
        refine ⟨?_, ?_⟩ <;> simp only [i32AsU32] <;> omega
      · simp at hok

/-- The all-success monitor environment used by the C4 witness. -/
def cm4env : MonEnv :=
  { bitBltOk := true, getDIBitsOk := true, mem := fun _ => 0,
    releaseFail := fun _ => false }

/-- The image `capture_monitor` produces in `cm4env` for a 2×3 request. -/
def monImg4 : RgbaImage := { width := 2, height := 3, data := List.replicate 24 0 }

/-- Witness for C4 on a concrete 2×3 monitor capture. -/
theorem c4_monitor_dims_witness :
    (monImg4.width : Int) = 2 ∧ (monImg4.height : Int) = 3 :=
  c4_monitor_dims cm4env 0 0 2 3 monImg4 (by norm_num) (by norm_num)
    (by norm_num) (by norm_num) rfl

/-- C1 fails as stated: in an environment where every technique of the
fallback chain reports failure (here: OS version 10 with all three
`PrintWindow` calls and the `BitBlt` fallback failing), `capture_window`
does not fail with a capture-method error — the chain's `is_success`
flag is never consulted — and instead returns an image read back from
the untouched surface. -/
theorem c1_counterexample :
    run_chain c1env =
      .ok (false, [Technique.pw2, Technique.pw0, Technique.pw4, Technique.blt]) ∧
    (capture_window c1env c1wi 1).1 =
      .ok { width := 2, height := 2, data := List.replicate 16 0 } := by
  constructor
  · rfl
  · simp [capture_window, run_chain, c1env, c1wi, pre_crop_size, to_rgba_image,
      crop_args, window_has_native_header, crop, satI32, satU32, i32AsU32,
      i32AsUsize, wrap32, bgra_to_rgba_image, swapBGRA, List.replicate]
    decide

/-- C1 amended: when every technique in the fallback chain fails,
`capture_window` still proceeds to the bitmap read-back and returns an
image whenever `GetDIBits` succeeds (for a surface of nonnegative,
`i32`-valid size); no `CaptureMethodFailed` error is produced. -/
theorem c1_all_fail_still_returns_image (env : WinEnv) (wi : WINDOWINFO)
    (s : Rat) (tr : List Technique)
    (hchain : run_chain env = .ok (false, tr))
    (hdib : env.getDIBitsOk = true)
    (hw : 0 ≤ (pre_crop_size env wi s).1)
    (hh : 0 ≤ (pre_crop_size env wi s).2)
    (hsz : (pre_crop_size env wi s).1 * (pre_crop_size env wi s).2 * 4 < 2 ^ 31) :
    ((capture_window env wi s).1).isOk = true := by
  have hbnd := pre_crop_size_le env wi s
  have hto := to_rgba_image_ok env.mem (pre_crop_size env wi s).1
    (pre_crop_size env wi s).2 hw hh hbnd.1 hbnd.2 hsz
  simp only [capture_window, hchain, hdib, hto]
  rfl

/-- Witness for the amended C1 at the concrete all-fail environment. -/
theorem c1_all_fail_still_returns_image_witness :
    ((capture_window c1env c1wi 1).1).isOk = true :=
  c1_all_fail_still_returns_image c1env c1wi 1
    [Technique.pw2, Technique.pw0, Technique.pw4, Technique.blt] rfl rfl
    (by norm_num [pre_crop_size, c1env, c1wi, satI32])
    (by norm_num [pre_crop_size, c1env, c1wi, satI32])
    (by norm_num [pre_crop_size, c1env, c1wi, satI32])

/-- C5 fails as stated: on a window whose computed crop rectangle has
zero width, `capture_window` does not fail with an `InvalidDimensions`
error (no such check exists); it successfully returns a zero-width
image. -/
theorem c5_counterexample :
    (crop_args c5wi 1).2.2.1 = 0 ∧
    (capture_window c5env c5wi 1).1 =
      .ok { width := 0, height := 4, data := [] } := by
  constructor
  · simp [crop_args, window_has_native_header, c5wi, satU32]
  · simp [capture_window, run_chain, c5env, c5wi, pre_crop_size, to_rgba_image,
      crop_args, window_has_native_header, crop, satI32, satU32, i32AsU32,
      i32AsUsize, wrap32, bgra_to_rgba_image, swapBGRA]

/-- C5 amended: `capture_window` performs no zero-dimension check — if
the computed crop rectangle has zero width or zero height, a successful
capture returns a zero-area image (zero width, respectively zero
height), not an `InvalidDimensions` error. -/
theorem c5_zero_crop_returns_zero_area (env : WinEnv) (wi : WINDOWINFO)
    (s : Rat) (img : RgbaImage)
    (hok : (capture_window env wi s).1 = .ok img)
    (hzero : (crop_args wi s).2.2.1 = 0 ∨ (crop_args wi s).2.2.2 = 0) :
    img.width = 0 ∨ img.height = 0 := by
  rcases hr : run_chain env with e | p
  · simp [capture_window, hr] at hok
  · rcases ht : to_rgba_image env.getDIBitsOk env.mem (pre_crop_size env wi s).1
      (pre_crop_size env wi s).2 with e | image
    · simp [capture_window, hr, ht] at hok
    · simp only [capture_window, hr, ht, Except.ok.injEq] at hok
      subst hok
      rcases hzero with hz | hz
      · left
        simp [crop, hz]
      · right
        simp [crop, hz]

/-- Witness for the amended C5 at the concrete zero-width-client
window. -/
theorem c5_zero_crop_returns_zero_area_witness :
    ({ width := 0, height := 4, data := [] } : RgbaImage).width = 0 ∨
    ({ width := 0, height := 4, data := [] } : RgbaImage).height = 0 :=
  c5_zero_crop_returns_zero_area c5env c5wi 1 _
    (by simp [capture_window, run_chain, c5env, c5wi, pre_crop_size, to_rgba_image,
      crop_args, window_has_native_header, crop, satI32, satU32, i32AsU32,
      i32AsUsize, wrap32, bgra_to_rgba_image, swapBGRA])
    (by simp [crop_args, window_has_native_header, c5wi, satU32])

/-- C7: in every execution of `capture_monitor` and `capture_window`,
each of the three acquired handles is released exactly once, on every
exit path — the event trace is always exactly the three acquisitions
followed by the three releases — releases run in strictly reverse order
of acquisition (bitmap, then memory DC, then window/desktop DC), and
release failures are only recorded (the `ok` flag of the release event),
never aborting the remaining releases and never changing the capture
result: the result component is invariant under any change of the
release-failure behaviour. -/
theorem c7_guard_lifecycle (menv : MonEnv) (x y w h : Int) (g : GdiHandle → Bool)
    (wenv : WinEnv) (wi : WINDOWINFO) (s : Rat) (g' : GdiHandle → Bool) :
    (capture_monitor menv x y w h).2 =
      [GdiEvent.acq .hdcDesktop, GdiEvent.acq .hdcMem, GdiEvent.acq .hBitmap,
       GdiEvent.rel .hBitmap (!menv.releaseFail .hBitmap),
       GdiEvent.rel .hdcMem (!menv.releaseFail .hdcMem),
       GdiEvent.rel .hdcDesktop (!menv.releaseFail .hdcDesktop)] ∧
    (capture_monitor { menv with releaseFail := g } x y w h).1 =
      (capture_monitor menv x y w h).1 ∧
    (capture_window wenv wi s).2 =
      [GdiEvent.acq .hdcWindow, GdiEvent.acq .hdcMem, GdiEvent.acq .hBitmap,
       GdiEvent.rel .hBitmap (!wenv.releaseFail .hBitmap),
       GdiEvent.rel .hdcMem (!wenv.releaseFail .hdcMem),
       GdiEvent.rel .hdcWindow (!wenv.releaseFail .hdcWindow)] ∧
    (capture_window { wenv with releaseFail := g' } wi s).1 =
      (capture_window wenv wi s).1 := by
  refine ⟨?_, ?_, ?_, ?_⟩
  · simp only [capture_monitor]
    split
    · rfl
    · split <;> rfl
  · have hsame : ∀ f : GdiHandle → Bool,
        ({ menv with releaseFail := f } : MonEnv).bitBltOk = menv.bitBltOk := fun _ => rfl
    simp only [capture_monitor, hsame]
    split
    · rfl
    · split <;> rfl
  · simp only [capture_window]
    split
    · rfl
    · split <;> rfl
  · have hchain : run_chain { wenv with releaseFail := g' } = run_chain wenv := rfl
    have hpre : pre_crop_size { wenv with releaseFail := g' } wi s =
        pre_crop_size wenv wi s := rfl
    simp only [capture_window, hchain, hpre]
    split
    · rfl
    · split <;> rfl

end XCap
